import Mathlib

/-!
Shallow embedding of the authentication-and-session-state subsystem of
the kl-sharepoint-mcp repository (file src/mcp_sharepoint/auth.py).

Modelling conventions:
* Python dict-based MSAL account records become the structure Account;
  a field read with account.get(key) is an Option, and account.get(key, d)
  is modelled by Option.getD.
* Python truthiness of an optional string (None and the empty string are
  falsy) is optStrTruthy.
* Python exceptions do not roll back earlier mutations, so every stateful
  operation returns a pair of an Except outcome and the final state.
* External collaborators (the MSAL identity provider: device-flow
  initiation, token exchange, silent refresh, and the post-exchange
  account list) are inputs to the operations, not modelled internally.
-/

namespace McpSharepoint

/-- Python truthiness of an optional string: None and the empty string
are falsy, every other string is truthy. -/
def optStrTruthy : Option String → Bool
  | none => false
  | some s => s != ""

/-- Python expression a or b on two optional strings: yields a when a is
truthy, otherwise b unchanged. -/
def pyOrOpt (a b : Option String) : Option String :=
  if optStrTruthy a then a else b

/-- Python expression a or b where a is an optional string and b a
string: yields the string content of a when truthy, otherwise b. -/
def pyOrStr (a : Option String) (b : String) : String :=
  match a with
  | some s => if s == "" then b else s
  | none => b

/-- Python comparison of a plain string with an optional string
(str == Optional-str): False against None, string equality otherwise. -/
def pyStrEqOpt (s : String) (o : Option String) : Bool :=
  match o with
  | none => false
  | some t => s == t

/-- Python str.lower, modelled per character (ASCII case folding),
used for the case-insensitive username comparisons. -/
def pyLower (s : String) : String :=
  ⟨s.data.map Char.toLower⟩

/-- An MSAL account record (a Python dict); every field is read with
dict.get in the source, hence Option. tenant_profiles is opaque
metadata, modelled as an opaque string. -/
structure Account where
  username : Option String
  name : Option String
  home_account_id : Option String
  environment : Option String
  tenant_profiles : Option String
deriving Repr, DecidableEq

/-- Serializable representation of an MSAL account (dataclass
AccountSummary in auth.py). -/
structure AccountSummary where
  username : String
  name : Option String
  home_account_id : String
  environment : Option String
  tenant_profiles : Option String
  is_active : Bool := false
deriving Repr, DecidableEq

/-- The error taxonomy of auth.py. AuthenticationFlowNotFound is a
subclass of AuthenticationError in the source; the constructors keep the
two raised types distinguishable, as the spec requires. -/
inductive AuthErr where
  | authError (msg : String)
  | flowNotFound (msg : String)
deriving Repr, DecidableEq

/-- The device-flow dict returned by MSAL initiate_device_flow and
stored whole in the pending map. payload stands for the remaining opaque
flow context MSAL needs to complete the exchange. -/
structure DeviceFlowInit where
  user_code : Option String
  verification_uri : Option String
  verification_uri_complete : Option String
  expires_in : Option Nat
  interval : Option Nat
  message : Option String
  payload : String
deriving Repr, DecidableEq

/-- The id-token claims of a token result, as read by auth.py. -/
structure IdTokenClaims where
  preferred_username : Option String
  email : Option String
deriving Repr, DecidableEq

/-- A token result dict from MSAL (device-flow exchange or silent
acquisition); only the keys auth.py reads are modelled. -/
structure TokenResult where
  access_token : Option String
  error_description : Option String
  account : Option Account
  id_token_claims : Option IdTokenClaims
  expires_in : Option Nat
  scope : Option String
  token_type : Option String
deriving Repr, DecidableEq

/-- Stand-in for json.dumps(result) in the silent-failure message; the
exact rendering is irrelevant to the subsystem, only that it is a
string derived from the result. -/
def jsonDumps (r : TokenResult) : String :=
  toString (repr r)

/-- The session state of GraphAuthManager: the accounts the MSAL app
currently reports from its token cache, the active-account pointer, and
the pending device flows keyed by flow identifier. -/
structure AuthState where
  accounts : List Account
  active_account_id : Option String
  pending_flows : List (String × DeviceFlowInit)
deriving Repr, DecidableEq

/-- Dictionary lookup on the pending-flow map. -/
def flowsLookup (m : List (String × DeviceFlowInit)) (k : String) :
    Option DeviceFlowInit :=
  (m.find? (fun p => p.1 == k)).map (fun p => p.2)

/-- Dictionary key removal on the pending-flow map (dict.pop). -/
def flowsErase (m : List (String × DeviceFlowInit)) (k : String) :
    List (String × DeviceFlowInit) :=
  m.filter (fun p => p.1 != k)

/-- Dictionary assignment on the pending-flow map (m[k] = v): binds k to
v, replacing any previous binding. -/
def flowsInsert (m : List (String × DeviceFlowInit)) (k : String)
    (v : DeviceFlowInit) : List (String × DeviceFlowInit) :=
  (k, v) :: flowsErase m k

/-- GraphAuthManager._serialize_account: None for a falsy account dict,
otherwise an AccountSummary whose is_active compares the raw optional
home_account_id with the active pointer (Python Optional equality, so
None equals None). -/
def serialize_account (active : Option String) :
    Option Account → Option AccountSummary
  | none => none
  | some a =>
    some { username := a.username.getD ""
           name := a.name
           home_account_id := a.home_account_id.getD ""
           environment := a.environment
           tenant_profiles := a.tenant_profiles
           is_active := a.home_account_id == active }

/-- GraphAuthManager.list_accounts: serializes every cached account;
when the active pointer is falsy and exactly one account exists, assigns
the pointer to the home id of that account and forces its summary
active; otherwise recomputes each is_active flag by comparing the
serialized (string) home id with the optional pointer. -/
def list_accounts (st : AuthState) : List AccountSummary × AuthState :=
  let accounts := st.accounts
  let summaries := accounts.map (fun a => serialize_account st.active_account_id (some a))
  if (!optStrTruthy st.active_account_id) && (accounts.length == 1) then
    match accounts with
    | a :: rest =>
      let s0 := serialize_account st.active_account_id (some a)
      (((s0.map (fun x => { x with is_active := true })) ::
          rest.map (fun b => serialize_account st.active_account_id (some b))).filterMap id,
       { st with active_account_id := a.home_account_id })
    | [] =>
      -- unreachable: the guard requires accounts.length == 1
      (summaries.filterMap id, st)
  else
    ((summaries.map (Option.map (fun s =>
        { s with is_active := pyStrEqOpt s.home_account_id st.active_account_id }))).filterMap id,
     st)

/-- GraphAuthManager.get_active_account: None at once on a falsy
pointer; otherwise the first cached account whose home id equals the
pointer, or — when none matches — None after clearing the pointer. -/
def get_active_account (st : AuthState) : Option Account × AuthState :=
  if !optStrTruthy st.active_account_id then
    (none, st)
  else
    match st.accounts.find? (fun a => a.home_account_id == st.active_account_id) with
    | some account => (some account, st)
    | none => (none, { st with active_account_id := none })

/-- The account loop of GraphAuthManager.set_active_account: per
account, first the home-id selector, then the case-insensitive username
selector; the first hit assigns the pointer and returns the summary with
is_active forced true; no hit raises AuthenticationError. -/
def set_active_account_loop (hid uname : Option String)
    (accs : List Account) (st : AuthState) :
    Except AuthErr (Option AccountSummary) × AuthState :=
  match accs with
  | [] =>
    (.error (.authError "No cached account matches the provided identifier"), st)
  | a :: rest =>
    if optStrTruthy hid && (a.home_account_id == hid) then
      let st' := { st with active_account_id := hid }
      (.ok ((serialize_account st'.active_account_id (some a)).map
        (fun s => { s with is_active := true })), st')
    else if optStrTruthy uname &&
        (pyLower (a.username.getD "") == pyLower (uname.getD "")) then
      let st' := { st with active_account_id := a.home_account_id }
      (.ok ((serialize_account st'.active_account_id (some a)).map
        (fun s => { s with is_active := true })), st')
    else
      set_active_account_loop hid uname rest st

/-- GraphAuthManager.set_active_account: AuthenticationError when both
selectors are falsy, otherwise the account loop. -/
def set_active_account (st : AuthState) (hid uname : Option String) :
    Except AuthErr (Option AccountSummary) × AuthState :=
  if (!optStrTruthy hid) && (!optStrTruthy uname) then
    (.error (.authError "Either home_account_id or username must be provided"), st)
  else
    set_active_account_loop hid uname st.accounts st

/-- Message raised by acquire_token_silent when no account is
resolvable (two adjacent string literals in the source). -/
def noActiveAccountMsg : String :=
  "No active Microsoft account selected. Use the authentication tools to sign in and select an account."

/-- Message prefix raised by acquire_token_silent when the provider
returns no usable token. -/
def silentFailMsg : String :=
  "Unable to acquire a token silently. Complete the device login flow first."

/-- The tail of acquire_token_silent from the provider call on: the
provider outcome is an input; no usable token raises
AuthenticationError with any provider error description attached
(json.dumps of the result when the description is falsy). -/
def acquire_token_silent_finish (st : AuthState) (_account : Account)
    (result : Option TokenResult) : Except AuthErr String × AuthState :=
  match result with
  | some r =>
    match r.access_token with
    | some tok => (.ok tok, st)
    | none =>
      let error_description := pyOrStr r.error_description (jsonDumps r)
      let details := if error_description == "" then "" else " Details: " ++ error_description
      (.error (.authError (silentFailMsg ++ details)), st)
  | none => (.error (.authError silentFailMsg), st)

/-- GraphAuthManager.acquire_token_silent: resolves the active account;
failing that, auto-selects a sole cached account (assigning the
pointer); failing that, raises AuthenticationError instructing
interactive login; then asks the provider (an input here) for a token. -/
def acquire_token_silent (st : AuthState) (result : Option TokenResult) :
    Except AuthErr String × AuthState :=
  let r0 := get_active_account st
  match r0.1 with
  | some account => acquire_token_silent_finish r0.2 account result
  | none =>
    match r0.2.accounts with
    | [a] =>
      acquire_token_silent_finish
        { r0.2 with active_account_id := a.home_account_id } a result
    | _ => (.error (.authError noActiveAccountMsg), r0.2)

/-- The human-facing subset of a started device flow returned to the
caller by start_device_login. -/
structure DeviceLoginInstructions where
  flow_id : String
  user_code : String
  verification_uri : Option String
  expires_in : Option Nat
  interval : Option Nat
  message : Option String
deriving Repr, DecidableEq

/-- Message raised by complete_device_login on an unknown flow
identifier. -/
def flowNotFoundMsg : String :=
  "The requested device flow does not exist or has already been completed."

/-- Message prefix raised by complete_device_login when the exchange
yields no usable token. -/
def deviceLoginFailMsg : String :=
  "Device login did not succeed."

/-- GraphAuthManager.start_device_login: the provider flow dict and the
generated uuid are inputs; no user code means AuthenticationError,
otherwise the flow is stored whole under the fresh identifier and only
the human-facing subset is returned (the verification URL falling back
to the complete variant with Python or). -/
def start_device_login (st : AuthState) (flow : DeviceFlowInit)
    (flow_id : String) :
    Except AuthErr DeviceLoginInstructions × AuthState :=
  match flow.user_code with
  | none => (.error (.authError "Failed to start the device login flow"), st)
  | some code =>
    (.ok { flow_id := flow_id
           user_code := code
           verification_uri := pyOrOpt flow.verification_uri flow.verification_uri_complete
           expires_in := flow.expires_in
           interval := flow.interval
           message := flow.message },
     { st with pending_flows := flowsInsert st.pending_flows flow_id flow })

/-- MSAL PublicClientApplication.get_accounts with a username filter:
keeps the accounts whose username matches case-insensitively. -/
def get_accounts_by_username (accounts : List Account) (u : String) :
    List Account :=
  accounts.filter (fun a => pyLower (a.username.getD "") == pyLower u)

/-- The structured success payload of complete_device_login (the raw
token never appears in it). -/
structure DeviceLoginResponse where
  success : Bool
  account : Option AccountSummary
  expires_in : Option Nat
  scope : Option String
  token_type : Option String
deriving Repr, DecidableEq

/-- The preferred-username computation of complete_device_login: the
username of the account record returned with the result when truthy,
otherwise preferred_username or email from the id-token claims (claims
defaulting to the empty dict with Python or). -/
def devicePreferredUsername (r : TokenResult) : Option String :=
  let preferred0 : Option String :=
    match r.account with
    | some account_info => account_info.username
    | none => none
  if !optStrTruthy preferred0 then
    match r.id_token_claims with
    | some claims => pyOrOpt claims.preferred_username claims.email
    | none => none
  else preferred0

/-- The account selection of complete_device_login after a successful
exchange: when the preferred username is truthy and some cached account
matches it, the first match becomes the selection and the active
pointer is assigned its home id; otherwise the last cached account, if
any, becomes the selection and the pointer is assigned likewise; with
no accounts at all the pointer keeps its previous value. Returns the
selection and the resulting pointer. -/
def deviceSelectAccount (r : TokenResult) (accounts : List Account)
    (active0 : Option String) : Option Account × Option String :=
  let preferred_username := devicePreferredUsername r
  let step1 : Option Account × Option String :=
    if optStrTruthy preferred_username then
      match (get_accounts_by_username accounts (preferred_username.getD "")).head? with
      | some sel => (some sel, sel.home_account_id)
      | none => (none, active0)
    else (none, active0)
  match step1.1 with
  | some _ => step1
  | none =>
    match accounts.getLast? with
    | some sel => (some sel, sel.home_account_id)
    | none => (none, step1.2)

/-- GraphAuthManager.complete_device_login: pops the flow (unknown
identifiers raise AuthenticationFlowNotFound before anything else), then
attempts the exchange, whose outcome — together with the account list
the MSAL cache reports afterwards — is an input. No usable token raises
AuthenticationError with the provider detail; on success the freshly
authenticated account is resolved (claims username first, then the first
username match, then the last known account), marked active, and
returned as a summary with is_active forced true. -/
def complete_device_login (st : AuthState) (flow_id : String)
    (result : Option TokenResult) (post_accounts : List Account) :
    Except AuthErr DeviceLoginResponse × AuthState :=
  match flowsLookup st.pending_flows flow_id with
  | none => (.error (.flowNotFound flowNotFoundMsg), st)
  | some _flow =>
    let st1 := { st with pending_flows := flowsErase st.pending_flows flow_id }
    match result with
    | none => (.error (.authError deviceLoginFailMsg), st1)
    | some r =>
      match r.access_token with
      | none =>
        let message :=
          match r.error_description with
          | some m => if m == "" then deviceLoginFailMsg
                      else deviceLoginFailMsg ++ " Details: " ++ m
          | none => deviceLoginFailMsg
        (.error (.authError message), st1)
      | some _tok =>
        -- the exchange updated the MSAL token cache; get_accounts now
        -- reports post_accounts
        let st2 := { st1 with accounts := post_accounts }
        let sel := deviceSelectAccount r st2.accounts st2.active_account_id
        let st3 := { st2 with active_account_id := sel.2 }
        let summary := (serialize_account st3.active_account_id sel.1).map
          (fun s => { s with is_active := true })
        (.ok { success := true
               account := summary
               expires_in := r.expires_in
               scope := r.scope
               token_type := r.token_type }, st3)

/-- The file-system and content condition of the persisted token cache
at startup, as distinguished by GraphAuthManager.init: absent path;
read_text raising OSError; empty content; content the MSAL
SerializableTokenCache deserializer accepts; nonempty content it rejects
(its deserialize json-parses the blob and raises ValueError on malformed
input, which is not an OSError). -/
inductive CacheFileCondition where
  | missing
  | unreadable
  | empty
  | wellFormed (data : String)
  | malformed (data : String)
deriving Repr, DecidableEq

/-- How GraphAuthManager.init can raise. -/
inductive InitError where
  | valueError (msg : String)
  | deserializeError
deriving Repr, DecidableEq

/-- Observable outcome of a successful GraphAuthManager.init. -/
structure InitResult where
  cacheLoaded : Bool
  warned : Bool
deriving Repr, DecidableEq

/-- The startup sequence of GraphAuthManager.init as far as the cache
file is concerned: a falsy client_id raises ValueError; the cache read
is wrapped in a try block whose except clause catches only OSError, so
an unreadable file degrades to a warning while deserializer rejection of
nonempty malformed content propagates out of the constructor. -/
def initAuthManager (client_id : String) (cond : CacheFileCondition) :
    Except InitError InitResult :=
  if client_id == "" then
    .error (.valueError "client_id is required to authenticate against Microsoft Graph")
  else
    match cond with
    | .missing => .ok { cacheLoaded := false, warned := false }
    | .unreadable => .ok { cacheLoaded := false, warned := true }
    | .empty => .ok { cacheLoaded := false, warned := false }
    | .wellFormed _ => .ok { cacheLoaded := true, warned := false }
    | .malformed _ => .error .deserializeError

/-- The username-or-email preference chain as the specification words
it: the username of the returned account record first, then the
preferred_username of the id-token claims, then their email, each
skipped when falsy. -/
def claimPreferredUsername (r : TokenResult) : Option String :=
  let fromAccount : Option String :=
    match r.account with
    | some a => a.username
    | none => none
  if optStrTruthy fromAccount then fromAccount
  else
    match r.id_token_claims with
    | some c => pyOrOpt c.preferred_username c.email
    | none => none

/-- The account-selection rule as the specification words it: when the
preference chain yields a (truthy) username, the most recently returned
account among those matching it (the head of the filtered provider
list); otherwise, or when nothing matches, the most recently known
account in the store (the last of the provider list). -/
def claimSelectedAccount (r : TokenResult) (known : List Account) :
    Option Account :=
  if optStrTruthy (claimPreferredUsername r) then
    match (get_accounts_by_username known ((claimPreferredUsername r).getD "")).head? with
    | some a => some a
    | none => known.getLast?
  else known.getLast?

/-- The selector match of set_active_account, read off the loop body: a
truthy home-id selector equal to the raw home id, or a truthy username
selector equal to the (defaulted) username up to case. -/
def matchesSelector (hid uname : Option String) (a : Account) : Bool :=
  (optStrTruthy hid && (a.home_account_id == hid)) ||
  (optStrTruthy uname && (pyLower (a.username.getD "") == pyLower (uname.getD "")))

/-- Whether a provider token result contains a usable access token. -/
def resultHasToken : Option TokenResult → Bool
  | some r => r.access_token.isSome
  | none => false

-- ------------------------------------------------------------------
-- Helper lemmas
-- ------------------------------------------------------------------

theorem flowsLookup_insert_self (m : List (String × DeviceFlowInit))
    (k : String) (v : DeviceFlowInit) :
    flowsLookup (flowsInsert m k v) k = some v := by
  simp [flowsLookup, flowsInsert, List.find?]

theorem flowsLookup_erase_self (m : List (String × DeviceFlowInit))
    (k : String) :
    flowsLookup (flowsErase m k) k = none := by
  have hfind : (flowsErase m k).find? (fun p => p.1 == k) = none := by
    rw [List.find?_eq_none]
    intro x hx
    simp only [flowsErase, List.mem_filter, bne_iff_ne, ne_eq, decide_not] at hx
    simp [hx.2]
  simp [flowsLookup, hfind]

theorem complete_device_login_notfound (st : AuthState) (fid : String)
    (result : Option TokenResult) (post : List Account)
    (h : flowsLookup st.pending_flows fid = none) :
    complete_device_login st fid result post =
      (.error (.flowNotFound flowNotFoundMsg), st) := by
  simp [complete_device_login, h]

theorem complete_device_login_pending (st : AuthState) (fid : String)
    (result : Option TokenResult) (post : List Account)
    (f : DeviceFlowInit) (h : flowsLookup st.pending_flows fid = some f) :
    ((complete_device_login st fid result post).2).pending_flows =
      flowsErase st.pending_flows fid := by
  simp only [complete_device_login, h]
  cases result with
  | none => rfl
  | some r =>
    cases hr : r.access_token with
    | none => simp only [hr]
    | some tok => simp only [hr]

-- ------------------------------------------------------------------
-- Concrete fixtures
-- ------------------------------------------------------------------

/-- A concrete cached account. -/
def acctA : Account :=
  { username := some "alice@example.com"
    name := some "Alice"
    home_account_id := some "id-a"
    environment := some "login.microsoftonline.com"
    tenant_profiles := none }

/-- A second concrete cached account. -/
def acctB : Account :=
  { username := some "bob@example.com"
    name := some "Bob"
    home_account_id := some "id-b"
    environment := some "login.microsoftonline.com"
    tenant_profiles := none }

/-- A session whose active pointer is stale: it names an identifier
that no cached account carries, while exactly one account is cached. -/
def staleSt : AuthState :=
  { accounts := [acctA], active_account_id := some "stale-id", pending_flows := [] }

/-- A session whose active pointer is the empty string, which no cached
account carries either. -/
def emptyPtrSt : AuthState :=
  { accounts := [acctA], active_account_id := some "", pending_flows := [] }

-- ------------------------------------------------------------------
-- C1
-- ------------------------------------------------------------------

/-- Claim C1 counterexample: with exactly one cached account and a
stale active pointer (an identifier no cached account carries, so no
account is currently active), list_accounts does NOT auto-promote the
sole account: it reports it with is_active false and leaves the stale
pointer untouched, contradicting the claim that the stale-pointer case
auto-promotes. -/
theorem list_accounts_stale_pointer_no_auto_select :
    (list_accounts staleSt).1 =
      [{ username := "alice@example.com"
         name := some "Alice"
         home_account_id := "id-a"
         environment := some "login.microsoftonline.com"
         tenant_profiles := none
         is_active := false }] ∧
    (list_accounts staleSt).2 = staleSt := by
  constructor <;> rfl

/-- Claim C1 as amended: when the active pointer is unset (falsy: None
or empty) and the store holds exactly one account, list_accounts
auto-promotes that account — reporting it with is_active true and
assigning the pointer its home identifier — and, provided the account
carries a nonempty home identifier, subsequent list_accounts calls
report it active without changing the state again; a stale (truthy)
pointer does not trigger the rule. -/
theorem list_accounts_auto_select_unset_pointer (st : AuthState) (a : Account)
    (hacc : st.accounts = [a])
    (hactive : optStrTruthy st.active_account_id = false) :
    (list_accounts st).1 =
      [{ username := a.username.getD ""
         name := a.name
         home_account_id := a.home_account_id.getD ""
         environment := a.environment
         tenant_profiles := a.tenant_profiles
         is_active := true }] ∧
    ((list_accounts st).2).active_account_id = a.home_account_id ∧
    ((list_accounts st).2).accounts = st.accounts ∧
    (∀ i, a.home_account_id = some i → i ≠ "" →
      (list_accounts (list_accounts st).2).1 = (list_accounts st).1 ∧
      (list_accounts (list_accounts st).2).2 = (list_accounts st).2) := by
  obtain ⟨accs, act, pend⟩ := st
  simp only at hacc hactive
  subst hacc
  refine ⟨?_, ?_, ?_, ?_⟩
  · simp [list_accounts, hactive, serialize_account]
  · simp [list_accounts, hactive]
  · simp [list_accounts, hactive]
  · intro i hi hne
    have h1 : list_accounts ⟨[a], act, pend⟩ =
        ([{ username := a.username.getD ""
            name := a.name
            home_account_id := a.home_account_id.getD ""
            environment := a.environment
            tenant_profiles := a.tenant_profiles
            is_active := true }],
         ⟨[a], a.home_account_id, pend⟩) := by
      simp [list_accounts, hactive, serialize_account]
    rw [h1]
    have htruthy : optStrTruthy a.home_account_id = true := by
      rw [hi]; simpa [optStrTruthy] using hne
    constructor
    · simp [list_accounts, htruthy, serialize_account, hi, pyStrEqOpt]
    · simp [list_accounts, htruthy]

/-- Witness for the amended C1 at a concrete one-account session with
an unset pointer. -/
theorem list_accounts_auto_select_unset_pointer_witness :
    (list_accounts { accounts := [acctA], active_account_id := none, pending_flows := [] }).1 =
      [{ username := "alice@example.com"
         name := some "Alice"
         home_account_id := "id-a"
         environment := some "login.microsoftonline.com"
         tenant_profiles := none
         is_active := true }] := by
  have h := list_accounts_auto_select_unset_pointer
    { accounts := [acctA], active_account_id := none, pending_flows := [] }
    acctA rfl rfl
  simpa [acctA] using h.1

-- ------------------------------------------------------------------
-- C8
-- ------------------------------------------------------------------

/-- Claim C8 counterexample: a session whose active pointer is the
empty-string identifier, which appears in no cached account: the claim
requires get_active_account to clear the pointer, but the code takes
the falsy-pointer early return and leaves the pointer at the empty
string while returning no account. -/
theorem get_active_account_empty_pointer_not_cleared :
    get_active_account emptyPtrSt = (none, emptyPtrSt) ∧
    ((get_active_account emptyPtrSt).2).active_account_id = some "" := by
  constructor <;> rfl

/-- Claim C8 as amended: for a nonempty active identifier, when it
appears in no cached account get_active_account clears the pointer and
returns no account, and when it does appear it returns the first
matching cached record with the state untouched; a falsy pointer (None
or the empty string) yields no account immediately and is left
unchanged. -/
theorem get_active_account_resolves (st : AuthState) (i : String)
    (hact : st.active_account_id = some i) (hne : i ≠ "") :
    ((∀ b ∈ st.accounts, b.home_account_id ≠ some i) →
      get_active_account st = (none, { st with active_account_id := none })) ∧
    (∀ a, st.accounts.find? (fun b => b.home_account_id == some i) = some a →
      get_active_account st = (some a, st)) := by
  have htruthy : optStrTruthy (some i) = true := by
    simpa [optStrTruthy] using hne
  constructor
  · intro habsent
    have hfind : st.accounts.find? (fun b => b.home_account_id == some i) = none := by
      rw [List.find?_eq_none]
      intro b hb
      simpa using habsent b hb
    simp [get_active_account, hact, htruthy, hfind]
  · intro a hfind
    simp [get_active_account, hact, htruthy, hfind]

/-- Witness for the amended C8 at a concrete session whose nonempty
active identifier is absent from the store. -/
theorem get_active_account_resolves_witness :
    get_active_account staleSt = (none, { staleSt with active_account_id := none }) := by
  have h := get_active_account_resolves staleSt "stale-id" rfl (by decide)
  exact h.1 (by decide)

-- ------------------------------------------------------------------
-- C2
-- ------------------------------------------------------------------

/-- A concrete provider device-flow dict with a user code. -/
def flowF : DeviceFlowInit :=
  { user_code := some "ABCD-1234"
    verification_uri := some "https://microsoft.com/devicelogin"
    verification_uri_complete := none
    expires_in := some 900
    interval := some 5
    message := some "visit the url and enter the code"
    payload := "opaque-device-flow-context" }

/-- Claim C2: every flow identifier returned by start_device_login is
accepted by complete_device_login at most once — whatever the exchange
outcome of the first completion call (success, provider failure, or no
result), the identifier is gone from the pending-flow map afterwards,
and every further completion call with it fails with
AuthenticationFlowNotFound. -/
theorem device_flow_single_use (st : AuthState) (flow : DeviceFlowInit)
    (fid : String) (instr : DeviceLoginInstructions) (st1 : AuthState)
    (hstart : start_device_login st flow fid = (.ok instr, st1)) :
    ∀ (result : Option TokenResult) (post : List Account),
      flowsLookup ((complete_device_login st1 instr.flow_id result post).2).pending_flows
        instr.flow_id = none ∧
      ∀ (result2 : Option TokenResult) (post2 : List Account),
        (complete_device_login ((complete_device_login st1 instr.flow_id result post).2)
          instr.flow_id result2 post2).1 = .error (.flowNotFound flowNotFoundMsg) := by
  intro result post
  cases hflow : flow.user_code with
  | none => simp [start_device_login, hflow] at hstart
  | some code =>
    simp only [start_device_login, hflow, Prod.mk.injEq] at hstart
    obtain ⟨hinstr, hst1⟩ := hstart
    have hfid : instr.flow_id = fid := by
      cases hinstr; rfl
    have hpend1 : st1.pending_flows = flowsInsert st.pending_flows fid flow := by
      rw [← hst1]
    have hlook : flowsLookup st1.pending_flows instr.flow_id = some flow := by
      rw [hfid, hpend1]
      exact flowsLookup_insert_self st.pending_flows fid flow
    have hpend2 :
        ((complete_device_login st1 instr.flow_id result post).2).pending_flows =
          flowsErase st1.pending_flows instr.flow_id :=
      complete_device_login_pending st1 instr.flow_id result post flow hlook
    have hnone :
        flowsLookup ((complete_device_login st1 instr.flow_id result post).2).pending_flows
          instr.flow_id = none := by
      rw [hpend2]
      exact flowsLookup_erase_self st1.pending_flows instr.flow_id
    refine ⟨hnone, ?_⟩
    intro result2 post2
    rw [complete_device_login_notfound _ _ result2 post2 hnone]

/-- Witness for C2: a concrete started flow, completed once with no
usable provider result; the identifier is consumed and a second
completion fails with AuthenticationFlowNotFound. -/
theorem device_flow_single_use_witness :
    flowsLookup
      ((complete_device_login
        { accounts := [], active_account_id := none,
          pending_flows := [("flow-1", flowF)] } "flow-1" none []).2).pending_flows
      "flow-1" = none ∧
    (complete_device_login
      ((complete_device_login
        { accounts := [], active_account_id := none,
          pending_flows := [("flow-1", flowF)] } "flow-1" none []).2)
      "flow-1" none []).1 = .error (.flowNotFound flowNotFoundMsg) := by
  have hstart :
      start_device_login
        { accounts := [], active_account_id := none, pending_flows := [] }
        flowF "flow-1" =
      (.ok { flow_id := "flow-1", user_code := "ABCD-1234",
             verification_uri := some "https://microsoft.com/devicelogin",
             expires_in := some 900, interval := some 5,
             message := some "visit the url and enter the code" },
       { accounts := [], active_account_id := none,
         pending_flows := [("flow-1", flowF)] }) := by rfl
  have h := device_flow_single_use
    { accounts := [], active_account_id := none, pending_flows := [] }
    flowF "flow-1" _ _ hstart none []
  exact ⟨h.1, h.2 none []⟩

-- ------------------------------------------------------------------
-- C3
-- ------------------------------------------------------------------

/-- Claim C3 counterexample: a nonempty cache file whose content the
token-cache deserializer rejects makes construction raise — the except
clause catches only OSError, so the deserializer error propagates out
of the startup sequence, contradicting the claim that no cache-file
content can make startup raise. -/
theorem init_malformed_cache_raises :
    initAuthManager "client-123" (.malformed "not json") =
      .error .deserializeError := rfl

/-- Claim C3 as amended: with a valid client identifier, construction
never fails because the cache file is missing, unreadable, or empty —
it proceeds with an empty in-memory cache, logging at most a warning —
and well-formed content loads; but a nonempty cache file the
deserializer rejects does make startup raise, since only OSError is
caught. -/
theorem init_cache_conditions (cid : String) (hcid : cid ≠ "") :
    initAuthManager cid .missing = .ok { cacheLoaded := false, warned := false } ∧
    initAuthManager cid .unreadable = .ok { cacheLoaded := false, warned := true } ∧
    initAuthManager cid .empty = .ok { cacheLoaded := false, warned := false } ∧
    (∀ d, initAuthManager cid (.wellFormed d) =
      .ok { cacheLoaded := true, warned := false }) := by
  have h : (cid == "") = false := by simpa using hcid
  refine ⟨?_, ?_, ?_, fun d => ?_⟩ <;> simp [initAuthManager, h]

/-- Witness for the amended C3 at a concrete client identifier. -/
theorem init_cache_conditions_witness :
    initAuthManager "client-123" .unreadable =
      .ok { cacheLoaded := false, warned := true } :=
  (init_cache_conditions "client-123" (by decide)).2.1

-- ------------------------------------------------------------------
-- C4
-- ------------------------------------------------------------------

/-- Claim C4: with zero cached accounts and no active pointer,
acquire_token_silent fails with AuthenticationError carrying the
message instructing the caller to use the authentication tools —
whatever the provider would have answered — and the session state is
untouched; in particular it is not an AuthenticationFlowNotFound and no
token is returned. -/
theorem acquire_token_silent_no_accounts (st : AuthState)
    (result : Option TokenResult)
    (hacc : st.accounts = []) (hact : st.active_account_id = none) :
    acquire_token_silent st result =
      (.error (.authError noActiveAccountMsg), st) := by
  simp [acquire_token_silent, get_active_account, hact, optStrTruthy, hacc]

/-- Witness for C4 at the concrete empty session. -/
theorem acquire_token_silent_no_accounts_witness :
    acquire_token_silent
      { accounts := [], active_account_id := none, pending_flows := [] } none =
    (.error (.authError noActiveAccountMsg),
     { accounts := [], active_account_id := none, pending_flows := [] }) :=
  acquire_token_silent_no_accounts _ none rfl rfl

-- ------------------------------------------------------------------
-- C6
-- ------------------------------------------------------------------

/-- Claim C6: for every flow identifier absent from the pending-flow
map, complete_device_login fails with AuthenticationFlowNotFound —
never with a plain AuthenticationError — whatever the provider result
and account list, so the caller can distinguish an invalid flow handle
from every other authentication failure. -/
theorem complete_device_login_unknown_flow (st : AuthState) (fid : String)
    (result : Option TokenResult) (post : List Account)
    (h : flowsLookup st.pending_flows fid = none) :
    (complete_device_login st fid result post).1 =
      .error (.flowNotFound flowNotFoundMsg) ∧
    ∀ m, (complete_device_login st fid result post).1 ≠
      .error (.authError m) := by
  have heq := complete_device_login_notfound st fid result post h
  constructor
  · rw [heq]
  · intro m
    rw [heq]
    simp

/-- Witness for C6: a never-issued identifier against an empty pending
map. -/
theorem complete_device_login_unknown_flow_witness :
    (complete_device_login
      { accounts := [acctA], active_account_id := none, pending_flows := [] }
      "no-such-flow" none []).1 = .error (.flowNotFound flowNotFoundMsg) :=
  (complete_device_login_unknown_flow
    { accounts := [acctA], active_account_id := none, pending_flows := [] }
    "no-such-flow" none [] rfl).1

-- ------------------------------------------------------------------
-- More helper lemmas
-- ------------------------------------------------------------------

theorem serialize_force_active (act : Option String) (oa : Option Account) :
    (serialize_account act oa).map (fun s => { s with is_active := true }) =
      oa.map (fun a =>
        { username := a.username.getD ""
          name := a.name
          home_account_id := a.home_account_id.getD ""
          environment := a.environment
          tenant_profiles := a.tenant_profiles
          is_active := true }) := by
  cases oa <;> rfl

theorem devicePreferred_eq_claim (r : TokenResult) :
    devicePreferredUsername r = claimPreferredUsername r := by
  simp only [devicePreferredUsername, claimPreferredUsername]
  cases hb : optStrTruthy (match r.account with
      | some a => a.username
      | none => none) <;> simp [hb]

theorem deviceSelect_eq_claim (r : TokenResult) (accs : List Account)
    (act0 : Option String) :
    (deviceSelectAccount r accs act0).1 = claimSelectedAccount r accs := by
  simp only [deviceSelectAccount, claimSelectedAccount, devicePreferred_eq_claim]
  cases hb : optStrTruthy (claimPreferredUsername r)
  · simp only [hb, Bool.false_eq_true, if_false]
    cases accs.getLast? <;> simp
  · simp only [hb, if_true]
    cases hh : (get_accounts_by_username accs ((claimPreferredUsername r).getD "")).head?
    · simp only [hh]
      cases accs.getLast? <;> simp
    · simp [hh]

theorem set_active_account_loop_no_match (hid uname : Option String)
    (accs : List Account) (st : AuthState)
    (h : ∀ a ∈ accs, matchesSelector hid uname a = false) :
    set_active_account_loop hid uname accs st =
      (.error (.authError "No cached account matches the provided identifier"), st) := by
  induction accs with
  | nil => rfl
  | cons a rest ih =>
    have ha := h a (List.mem_cons_self a rest)
    rw [matchesSelector, Bool.or_eq_false_iff] at ha
    simp only [set_active_account_loop, ha.1, ha.2, Bool.false_eq_true, if_false]
    exact ih (fun b hb => h b (List.mem_cons_of_mem a hb))

theorem set_active_account_loop_success (hid uname : Option String)
    (accs : List Account) (st : AuthState) (osum : Option AccountSummary)
    (h : (set_active_account_loop hid uname accs st).1 = .ok osum) :
    ∃ a ∈ accs, matchesSelector hid uname a = true ∧
      ((set_active_account_loop hid uname accs st).2).active_account_id =
        a.home_account_id ∧
      osum = some
        { username := a.username.getD ""
          name := a.name
          home_account_id := a.home_account_id.getD ""
          environment := a.environment
          tenant_profiles := a.tenant_profiles
          is_active := true } := by
  induction accs with
  | nil => simp [set_active_account_loop] at h
  | cons a rest ih =>
    cases h1 : (optStrTruthy hid && (a.home_account_id == hid)) with
    | true =>
      have hida : a.home_account_id = hid :=
        eq_of_beq (Bool.and_elim_right h1)
      refine ⟨a, List.mem_cons_self a rest, ?_, ?_, ?_⟩
      · rw [matchesSelector, h1, Bool.true_or]
      · simp only [set_active_account_loop, h1, if_true]
        exact hida.symm
      · simp only [set_active_account_loop, h1, if_true, Except.ok.injEq] at h
        rw [← h]
        rfl
    | false =>
      cases h2 : (optStrTruthy uname &&
          (pyLower (a.username.getD "") == pyLower (uname.getD ""))) with
      | true =>
        refine ⟨a, List.mem_cons_self a rest, ?_, ?_, ?_⟩
        · rw [matchesSelector, h1, h2, Bool.false_or]
        · simp only [set_active_account_loop, h1, h2, Bool.false_eq_true,
            if_false, if_true]
        · simp only [set_active_account_loop, h1, h2, Bool.false_eq_true,
            if_false, if_true, Except.ok.injEq] at h
          rw [← h]
          rfl
      | false =>
        simp only [set_active_account_loop, h1, h2, Bool.false_eq_true,
          if_false] at h ⊢
        obtain ⟨b, hb, hrest⟩ := ih h
        exact ⟨b, List.mem_cons_of_mem a hb, hrest⟩

-- ------------------------------------------------------------------
-- C5
-- ------------------------------------------------------------------

/-- Claim C5: set_active_account fails with AuthenticationError when
both selectors are missing (falsy) and when no cached account matches
the given selector (home id by equality, username case-insensitively),
leaving the whole session state — in particular the active pointer —
exactly as it was; and every success returns the summary of a matching
cached account with is_active true, with the pointer updated to that
account. -/
theorem set_active_account_spec (st : AuthState) (hid uname : Option String) :
    (((optStrTruthy hid = false ∧ optStrTruthy uname = false) ∨
      (∀ a ∈ st.accounts, matchesSelector hid uname a = false)) →
      ((∃ m, (set_active_account st hid uname).1 = .error (.authError m)) ∧
       (set_active_account st hid uname).2 = st)) ∧
    (∀ osum, (set_active_account st hid uname).1 = .ok osum →
      ∃ a ∈ st.accounts, matchesSelector hid uname a = true ∧
        ((set_active_account st hid uname).2).active_account_id =
          a.home_account_id ∧
        osum = some
          { username := a.username.getD ""
            name := a.name
            home_account_id := a.home_account_id.getD ""
            environment := a.environment
            tenant_profiles := a.tenant_profiles
            is_active := true }) := by
  constructor
  · intro h
    cases hg : ((!optStrTruthy hid) && (!optStrTruthy uname)) with
    | true =>
      constructor
      · exact ⟨"Either home_account_id or username must be provided",
          by simp [set_active_account, hg]⟩
      · simp [set_active_account, hg]
    | false =>
      rcases h with ⟨hf1, hf2⟩ | hnm
      · rw [hf1, hf2] at hg
        simp at hg
      · simp only [set_active_account, hg, Bool.false_eq_true, if_false]
        rw [set_active_account_loop_no_match hid uname st.accounts st hnm]
        exact ⟨⟨_, rfl⟩, rfl⟩
  · intro osum hok
    cases hg : ((!optStrTruthy hid) && (!optStrTruthy uname)) with
    | true => simp [set_active_account, hg] at hok
    | false =>
      simp only [set_active_account, hg, Bool.false_eq_true, if_false] at hok ⊢
      exact set_active_account_loop_success hid uname st.accounts st osum hok

/-- Witness for C5 at a concrete two-account store: a selector that
matches nothing fails and leaves the state unchanged. -/
theorem set_active_account_spec_witness :
    (∃ m, (set_active_account
      { accounts := [acctA, acctB], active_account_id := some "id-a",
        pending_flows := [] } (some "id-zzz") none).1 =
        .error (.authError m)) ∧
    (set_active_account
      { accounts := [acctA, acctB], active_account_id := some "id-a",
        pending_flows := [] } (some "id-zzz") none).2 =
      { accounts := [acctA, acctB], active_account_id := some "id-a",
        pending_flows := [] } :=
  (set_active_account_spec
    { accounts := [acctA, acctB], active_account_id := some "id-a",
      pending_flows := [] } (some "id-zzz") none).1
    (Or.inr (by decide))

-- ------------------------------------------------------------------
-- C7
-- ------------------------------------------------------------------

/-- Claim C7: on a successful token exchange, complete_device_login
returns a success payload whose account summary is exactly the
serialization of the account picked by the preference order the spec
states — the username or email embedded in the returned identity
claims first (account username, then preferred_username, then email),
then the first (most recently returned) cached account matching that
username, and finally the last (most recently known) cached account —
and that summary is marked active. -/
theorem complete_device_login_selects_claimed_account (st : AuthState)
    (fid : String) (f : DeviceFlowInit) (r : TokenResult)
    (post : List Account) (tok : String)
    (hflow : flowsLookup st.pending_flows fid = some f)
    (htok : r.access_token = some tok) :
    ∃ resp, (complete_device_login st fid (some r) post).1 = .ok resp ∧
      resp.success = true ∧
      resp.account = (claimSelectedAccount r post).map (fun a =>
        { username := a.username.getD ""
          name := a.name
          home_account_id := a.home_account_id.getD ""
          environment := a.environment
          tenant_profiles := a.tenant_profiles
          is_active := true }) ∧
      (∀ s, resp.account = some s → s.is_active = true) := by
  simp only [complete_device_login, hflow, htok]
  refine ⟨_, rfl, rfl, ?_, ?_⟩
  · simp only [serialize_force_active, deviceSelect_eq_claim]
  · intro s hs
    simp only [serialize_force_active] at hs
    obtain ⟨a, _ha, hfa⟩ := Option.map_eq_some'.mp hs
    rw [← hfa]

/-- A concrete successful exchange result naming the account of
acctA. -/
def tokenResultAlice : TokenResult :=
  { access_token := some "tok-1"
    error_description := none
    account := some acctA
    id_token_claims := none
    expires_in := some 3600
    scope := some "Files.ReadWrite.All"
    token_type := some "Bearer" }

/-- Witness for C7: completing a concrete pending flow with a
successful exchange for acctA yields a success payload carrying the
acctA summary marked active. -/
theorem complete_device_login_selects_claimed_account_witness :
    ∃ resp, (complete_device_login
      { accounts := [], active_account_id := none,
        pending_flows := [("flow-1", flowF)] }
      "flow-1" (some tokenResultAlice) [acctA]).1 = .ok resp ∧
      resp.account = some
        { username := "alice@example.com"
          name := some "Alice"
          home_account_id := "id-a"
          environment := some "login.microsoftonline.com"
          tenant_profiles := none
          is_active := true } := by
  obtain ⟨resp, h1, _h2, h3, _h4⟩ :=
    complete_device_login_selects_claimed_account
      { accounts := [], active_account_id := none,
        pending_flows := [("flow-1", flowF)] }
      "flow-1" flowF tokenResultAlice [acctA] "tok-1" rfl rfl
  refine ⟨resp, h1, ?_⟩
  rw [h3]
  decide

-- ------------------------------------------------------------------
-- C9
-- ------------------------------------------------------------------

/-- Claim C9: at most one entry of any account list produced by
list_accounts carries is_active true, for every session state whose
cached accounts have pairwise distinct serialized home identifiers —
and since the flags are recomputed from the pointer on every call, this
holds in whatever state any operation of the subsystem leaves behind. -/
theorem serialize_account_some (act : Option String) (a : Account) :
    serialize_account act (some a) = some
      { username := a.username.getD ""
        name := a.name
        home_account_id := a.home_account_id.getD ""
        environment := a.environment
        tenant_profiles := a.tenant_profiles
        is_active := a.home_account_id == act } := rfl

theorem serialize_else_form (accs : List Account) (act : Option String) :
    (((accs.map (fun a => serialize_account act (some a))).map
      (Option.map (fun s =>
        { s with is_active := pyStrEqOpt s.home_account_id act }))).filterMap id) =
    accs.map (fun a =>
      ({ username := a.username.getD ""
         name := a.name
         home_account_id := a.home_account_id.getD ""
         environment := a.environment
         tenant_profiles := a.tenant_profiles
         is_active := pyStrEqOpt (a.home_account_id.getD "") act } : AccountSummary)) := by
  induction accs with
  | nil => rfl
  | cons a t ih =>
    simp only [serialize_account_some] at ih ⊢
    simp only [List.map_cons, List.filterMap_cons, Option.map_some', id_eq]
    rw [ih]

theorem list_accounts_at_most_one_active (st : AuthState)
    (hnodup : (st.accounts.map (fun a => a.home_account_id.getD "")).Nodup) :
    ((list_accounts st).1.countP (fun s => s.is_active)) ≤ 1 := by
  obtain ⟨accs, act, pend⟩ := st
  simp only at hnodup
  cases hg : ((!optStrTruthy act) && (accs.length == 1)) with
  | true =>
    rcases accs with _ | ⟨a, _ | ⟨b, rest⟩⟩
    · exfalso
      have h2 := Bool.and_elim_right hg
      simp at h2
    · have hf : optStrTruthy act = false := by simpa using hg
      simp [list_accounts, hf, serialize_account, List.countP_cons]
    · exfalso
      have h2 := Bool.and_elim_right hg
      simp at h2
  | false =>
    simp only [list_accounts, hg, Bool.false_eq_true, if_false]
    rw [serialize_else_form, List.countP_map]
    cases act with
    | none =>
      have h0 :
          accs.countP ((fun s => s.is_active) ∘ fun a =>
            ({ username := a.username.getD ""
               name := a.name
               home_account_id := a.home_account_id.getD ""
               environment := a.environment
               tenant_profiles := a.tenant_profiles
               is_active := pyStrEqOpt (a.home_account_id.getD "") none } : AccountSummary)) = 0 := by
        rw [List.countP_eq_zero]
        intro x hx
        simp [pyStrEqOpt]
      simp [h0]
    | some p =>
      have hcnt :
          accs.countP ((fun s => s.is_active) ∘ fun a =>
            ({ username := a.username.getD ""
               name := a.name
               home_account_id := a.home_account_id.getD ""
               environment := a.environment
               tenant_profiles := a.tenant_profiles
               is_active := pyStrEqOpt (a.home_account_id.getD "") (some p) } : AccountSummary)) =
          (accs.map (fun a => a.home_account_id.getD "")).countP (fun s => s == p) := by
        rw [List.countP_map]
        rfl
      rw [hcnt]
      have hle := List.nodup_iff_count_le_one.mp hnodup p
      rw [List.count_eq_countP] at hle
      exact hle

/-- Witness for C9 at a concrete two-account session with a truthy
pointer. -/
theorem list_accounts_at_most_one_active_witness :
    ((list_accounts
      { accounts := [acctA, acctB], active_account_id := some "id-b",
        pending_flows := [] }).1.countP (fun s => s.is_active)) ≤ 1 :=
  list_accounts_at_most_one_active
    { accounts := [acctA, acctB], active_account_id := some "id-b",
      pending_flows := [] } (by decide)

-- ------------------------------------------------------------------
-- C10
-- ------------------------------------------------------------------

theorem get_active_account_preserves_accounts (st : AuthState) :
    ((get_active_account st).2).accounts = st.accounts := by
  rw [get_active_account]
  split
  · rfl
  · split <;> rfl

theorem acquire_token_silent_finish_failure (st : AuthState) (a : Account)
    (result : Option TokenResult) (htok : resultHasToken result = false) :
    (∃ m, acquire_token_silent_finish st a result = (.error (.authError m), st)) := by
  cases result with
  | none => exact ⟨silentFailMsg, rfl⟩
  | some r =>
    cases hr : r.access_token with
    | none =>
      exact ⟨silentFailMsg ++
        (if (pyOrStr r.error_description (jsonDumps r)) == "" then ""
         else " Details: " ++ pyOrStr r.error_description (jsonDumps r)),
        by simp only [acquire_token_silent_finish, hr]⟩
    | some tok =>
      rw [resultHasToken, hr] at htok
      simp at htok

/-- Claim C10: acquire_token_silent is not atomic on failure — from
every session state where no active account resolves and exactly one
account is cached, the call assigns the active pointer the home
identifier of that account, and when the provider then returns no
usable token the call fails with AuthenticationError while the pointer
stays assigned to that account. -/
theorem acquire_token_silent_pointer_survives_failure (st : AuthState)
    (a : Account) (result : Option TokenResult)
    (hres : (get_active_account st).1 = none)
    (hacc : st.accounts = [a])
    (htok : resultHasToken result = false) :
    (∃ m, (acquire_token_silent st result).1 = .error (.authError m)) ∧
    ((acquire_token_silent st result).2).active_account_id =
      a.home_account_id := by
  have hacc2 : ((get_active_account st).2).accounts = [a] := by
    rw [get_active_account_preserves_accounts, hacc]
  obtain ⟨m, hm⟩ := acquire_token_silent_finish_failure
    { accounts := [a], active_account_id := a.home_account_id,
      pending_flows := ((get_active_account st).2).pending_flows } a result htok
  constructor
  · refine ⟨m, ?_⟩
    simp only [acquire_token_silent, hres, hacc2]
    rw [hm]
  · simp only [acquire_token_silent, hres, hacc2]
    rw [hm]

/-- Witness for C10: a one-account session with no pointer and a
provider that returns nothing; the call fails yet the pointer now names
the sole account. -/
theorem acquire_token_silent_pointer_survives_failure_witness :
    (∃ m, (acquire_token_silent
      { accounts := [acctA], active_account_id := none, pending_flows := [] }
      none).1 = .error (.authError m)) ∧
    ((acquire_token_silent
      { accounts := [acctA], active_account_id := none, pending_flows := [] }
      none).2).active_account_id = some "id-a" :=
  acquire_token_silent_pointer_survives_failure
    { accounts := [acctA], active_account_id := none, pending_flows := [] }
    acctA none rfl rfl rfl

end McpSharepoint
